import Mathlib

/-!
Verification development for the libecto Ghost Admin API client.

The Go source is shallowly embedded: pure functions (credential parsing,
token-claim construction, JSON marshaling of pagination records, response
classification) become Lean functions; external collaborators (the JSON
codec applied to caller-supplied shapes, the HTTP transport, the local file
system, the HMAC signing primitive of the golang-jwt dependency) are
passed in as explicit oracle parameters, and each client operation returns
alongside its result the trace of transport (or file-system) calls it
issued, so that call-counting and fallback-ordering properties can be
stated and proved.

Go strings are modelled as Lean `String` (sequences of characters); Go
byte-slice values derived from hex decoding are modelled as `List Nat`.
-/

namespace Libecto

/-- Embedding of `strings.Split(s, ":")` from the Go standard library for
the single-character separator `:`, over the character list of the string:
`splitOnColon [] = [[]]`, and each `:` starts a new (initially empty)
segment. -/
def splitOnColon : List Char → List (List Char)
  | [] => [[]]
  | c :: rest =>
    if c = ':' then [] :: splitOnColon rest
    else
      match splitOnColon rest with
      | [] => [[c]]
      | h :: t => (c :: h) :: t

/-- Value of a single hexadecimal digit, as in Go `encoding/hex.fromHexChar`:
`0-9`, `a-f`, `A-F` accepted, anything else rejected. -/
def fromHexChar (c : Char) : Option Nat :=
  if '0' ≤ c ∧ c ≤ '9' then some (c.toNat - '0'.toNat)
  else if 'a' ≤ c ∧ c ≤ 'f' then some (c.toNat - 'a'.toNat + 10)
  else if 'A' ≤ c ∧ c ≤ 'F' then some (c.toNat - 'A'.toNat + 10)
  else none

/-- Embedding of `hex.DecodeString`: decodes two characters per output
byte; fails on odd length or on any non-hex character. -/
def hexDecodeL : List Char → Option (List Nat)
  | [] => some []
  | [_] => none
  | hi :: lo :: rest =>
    match fromHexChar hi, fromHexChar lo, hexDecodeL rest with
    | some h, some l, some bs => some ((h * 16 + l) :: bs)
    | _, _, _ => none

/-- Embedding of `ParseAPIKey` (auth.go): split on `:`, require exactly two
segments, reject an empty id or secret segment, hex-decode the secret.
Error messages follow the Go source (quotes elided). -/
def ParseAPIKey (apiKey : String) : Except String (String × List Nat) :=
  match (splitOnColon apiKey.data).map String.mk with
  | [id, secret] =>
    if id = "" then
      Except.error "invalid API key format: id cannot be empty"
    else if secret = "" then
      Except.error "invalid API key format: secret cannot be empty"
    else
      match hexDecodeL secret.data with
      | none => Except.error "invalid API key secret: encoding error"
      | some bs => Except.ok (id, bs)
  | _ => Except.error "invalid API key format: expected id:secret"

/-- Go `time.Time` wall-clock reading: whole seconds since the epoch plus a
nanosecond remainder (well-formed when `nsec < 10^9`). `Unix()` returns the
seconds component. -/
structure GoTime where
  sec : Int
  nsec : Nat
  deriving DecidableEq, Repr

/-- `time.Time.Unix()`. -/
def GoTime.unix (t : GoTime) : Int := t.sec

/-- `time.Time.Add(d)` for a duration of `dNs` nanoseconds: the duration is
split into whole seconds and a nonnegative nanosecond remainder, and the
nanosecond fields are renormalised. -/
def GoTime.add (t : GoTime) (dNs : Int) : GoTime :=
  let dsec := dNs / 1000000000
  let dnsec := dNs % 1000000000
  let n : Int := (t.nsec : Int) + dnsec
  if n ≥ 1000000000 then ⟨t.sec + dsec + 1, (n - 1000000000).toNat⟩
  else ⟨t.sec + dsec, n.toNat⟩

/-- The data determining the signed JWT produced by `GenerateTokenWithTime`
(auth.go): the header fields (`alg`, `typ`, `kid`), the claims (`iat`,
`exp`, `aud`) and the HMAC key. The golang-jwt dependency serialises the
header and claims deterministically (JSON with sorted map keys) and
HMAC-SHA256 is a deterministic function of key and message, so two tokens
are byte-identical exactly when these records are equal. -/
structure SignedToken where
  alg : String
  typ : String
  kid : String
  iat : Int
  exp : Int
  aud : String
  key : List Nat
  deriving DecidableEq, Repr

/-- Embedding of `GenerateTokenWithTime` (auth.go): parse the credential,
then build the token with `iat = now.Unix()`, `exp = now.Add(5m).Unix()`,
`aud = "/admin/"`, header `kid` set to the parsed id, signed HS256 with the
decoded secret. -/
def GenerateTokenWithTime (apiKey : String) (now : GoTime) : Except String SignedToken :=
  match ParseAPIKey apiKey with
  | Except.error e => Except.error e
  | Except.ok (id, secret) =>
    Except.ok
      { alg := "HS256", typ := "JWT", kid := id,
        iat := now.unix,
        exp := (now.add (300 * 1000000000)).unix,
        aud := "/admin/",
        key := secret }

/-- Embedding of `GenerateToken` (auth.go): identical to
`GenerateTokenWithTime` with the wall clock supplied as an explicit
parameter (`time.Now()` is an external effect). -/
def GenerateToken (apiKey : String) (now : GoTime) : Except String SignedToken :=
  GenerateTokenWithTime apiKey now

/-! ### JSON values and the Pagination record (types.go) -/

/-- JSON values, the image of Go `encoding/json` marshaling for the types
used here (integral numbers only, as all numeric fields are Go `int`). -/
inductive JSON where
  | null : JSON
  | bool (b : Bool) : JSON
  | num (n : Int) : JSON
  | str (s : String) : JSON
  | arr (xs : List JSON) : JSON
  | obj (fields : List (String × JSON)) : JSON

/-- First value bound to `key` in a JSON object field list. -/
def jsonLookup (fields : List (String × JSON)) (key : String) : Option JSON :=
  match fields with
  | [] => none
  | (k, v) :: rest => if k = key then some v else jsonLookup rest key

/-- Embedding of the `Pagination` struct (types.go): four plain `int`
fields and two `*int` fields (`next`, `prev`) with no `omitempty` on any of
them, so all six keys always marshal, a nil pointer marshaling as `null`. -/
structure Pagination where
  page : Int := 0
  limit : Int := 0
  pages : Int := 0
  total : Int := 0
  next : Option Int := none
  prev : Option Int := none
  deriving DecidableEq, Repr

/-- Field list produced by marshaling a `Pagination`: struct-order keys,
`next`/`prev` as explicit `null` when nil. -/
def Pagination.marshalFields (p : Pagination) : List (String × JSON) :=
  [("page", JSON.num p.page),
   ("limit", JSON.num p.limit),
   ("pages", JSON.num p.pages),
   ("total", JSON.num p.total),
   ("next", match p.next with | none => JSON.null | some n => JSON.num n),
   ("prev", match p.prev with | none => JSON.null | some n => JSON.num n)]

/-- `json.Marshal` on a `Pagination` value. -/
def Pagination.marshal (p : Pagination) : JSON :=
  JSON.obj p.marshalFields

/-- `json.Unmarshal` behaviour for a plain `int` struct field starting
from the zero value: an absent key or a `null` leaves `0`, a number sets
the field, any other shape is a type error. -/
def readIntField (fs : List (String × JSON)) (key : String) : Option Int :=
  match jsonLookup fs key with
  | none => some 0
  | some JSON.null => some 0
  | some (JSON.num n) => some n
  | some _ => none

/-- `json.Unmarshal` behaviour for a `*int` struct field starting from the
zero value: an absent key or a `null` leaves `nil`, a number allocates and
sets, any other shape is a type error. -/
def readOptIntField (fs : List (String × JSON)) (key : String) : Option (Option Int) :=
  match jsonLookup fs key with
  | none => some none
  | some JSON.null => some none
  | some (JSON.num n) => some (some n)
  | some _ => none

/-- `json.Unmarshal` of a JSON value into a fresh `Pagination`. -/
def Pagination.unmarshal (j : JSON) : Option Pagination :=
  match j with
  | JSON.obj fs => do
    let page ← readIntField fs "page"
    let limit ← readIntField fs "limit"
    let pages ← readIntField fs "pages"
    let total ← readIntField fs "total"
    let next ← readOptIntField fs "next"
    let prev ← readOptIntField fs "prev"
    pure { page := page, limit := limit, pages := pages, total := total,
           next := next, prev := prev }
  | _ => none

/-! ### Domain records and collection wrappers (types.go)

Field defaults are the Go zero values, so `{}` is the zero-valued record. -/

/-- The `Tag` struct. (`postCount` carries the `count.posts` JSON key.) -/
structure Tag where
  id : String := ""
  name : String := ""
  slug : String := ""
  description : String := ""
  featureImage : String := ""
  visibility : String := ""
  postCount : Int := 0
  deriving DecidableEq, Repr

/-- The `Author` struct. -/
structure Author where
  id : String := ""
  name : String := ""
  slug : String := ""
  email : String := ""
  bio : String := ""
  location : String := ""
  website : String := ""
  twitter : String := ""
  facebook : String := ""
  profileImage : String := ""
  deriving DecidableEq, Repr

/-- The `Post` struct. -/
structure Post where
  id : String := ""
  uuid : String := ""
  title : String := ""
  slug : String := ""
  html : String := ""
  mobiledoc : String := ""
  status : String := ""
  visibility : String := ""
  publishedAt : String := ""
  createdAt : String := ""
  updatedAt : String := ""
  excerpt : String := ""
  customExcerpt : String := ""
  featureImage : String := ""
  featured : Bool := false
  tags : List Tag := []
  authors : List Author := []
  deriving DecidableEq, Repr

/-- The `Page` struct. -/
structure Page where
  id : String := ""
  uuid : String := ""
  title : String := ""
  slug : String := ""
  html : String := ""
  mobiledoc : String := ""
  status : String := ""
  visibility : String := ""
  publishedAt : String := ""
  createdAt : String := ""
  updatedAt : String := ""
  featureImage : String := ""
  tags : List Tag := []
  authors : List Author := []
  deriving DecidableEq, Repr

/-- The `Newsletter` struct. -/
structure Newsletter where
  id : String := ""
  name : String := ""
  description : String := ""
  status : String := ""
  slug : String := ""
  senderName : String := ""
  senderEmail : String := ""
  senderReplyTo : String := ""
  subscribeOnSignup : Bool := false
  deriving DecidableEq, Repr

/-- The `Webhook` struct. -/
structure Webhook where
  id : String := ""
  event : String := ""
  targetURL : String := ""
  name : String := ""
  secret : String := ""
  status : String := ""
  lastTriggeredAt : String := ""
  integrationID : String := ""
  deriving DecidableEq, Repr

/-- The `Image` struct. -/
structure Image where
  url : String := ""
  ref : String := ""
  deriving DecidableEq, Repr

/-- `Meta` (pagination wrapper). -/
structure Meta where
  pagination : Pagination := {}
  deriving DecidableEq, Repr

/-- `PostsResponse`. -/
structure PostsResponse where
  posts : List Post := []
  meta : Option Meta := none
  deriving DecidableEq, Repr

/-- `PagesResponse`. -/
structure PagesResponse where
  pages : List Page := []
  meta : Option Meta := none
  deriving DecidableEq, Repr

/-- `TagsResponse`. -/
structure TagsResponse where
  tags : List Tag := []
  meta : Option Meta := none
  deriving DecidableEq, Repr

/-- `NewslettersResponse`. -/
structure NewslettersResponse where
  newsletters : List Newsletter := []
  deriving DecidableEq, Repr

/-- `WebhooksResponse`. -/
structure WebhooksResponse where
  webhooks : List Webhook := []
  deriving DecidableEq, Repr

/-- `ImagesResponse`. -/
structure ImagesResponse where
  images : List Image := []
  deriving DecidableEq, Repr

/-- The `APIError` struct of the error envelope. (The Go field `Type` is
rendered `errType`, `type` being reserved in Lean.) -/
structure APIError where
  message : String := ""
  context : String := ""
  errType : String := ""
  deriving DecidableEq, Repr

/-- The `ErrorResponse` envelope. -/
structure ErrorResponse where
  errors : List APIError := []
  deriving DecidableEq, Repr

/-! ### Transport response classification (client.go, `do`) -/

/-- Failure produced by the response-classification half of `do`:
either the formatted API error (the Go code folds the status into the
message text via `fmt.Errorf("API error (%d): %s", ...)`; the status is
kept alongside here as the datum that format string renders), or a JSON
decode failure on a success status. -/
inductive DoError where
  | apiError (status : Nat) (text : String) : DoError
  | decodeFail : DoError
  deriving DecidableEq, Repr

/-- Embedding of the response-handling part of `do` (client.go lines
99-114), after the body has been read in full. The two `json.Unmarshal`
collaborators are oracle parameters: `dE` decodes the buffered body as an
error envelope, `dR` decodes it as the caller-supplied result shape, and
`wantResult` records whether a result sink was supplied (`result != nil`).
On `status >= 400`: if the envelope decodes with at least one entry, the
message is the first entry's message, extended with `": " + context` when
the context is non-empty; otherwise the raw body text is used. On a
success status the body is decoded only when a result sink exists. -/
def handleResponse {ρ : Type} (status : Nat) (body : String)
    (dE : String → Option ErrorResponse)
    (dR : String → Option ρ)
    (wantResult : Bool) : Except DoError (Option ρ) :=
  if status ≥ 400 then
    match dE body with
    | some env =>
      match env.errors with
      | e :: _ =>
        let msg := if e.context ≠ "" then e.message ++ ": " ++ e.context else e.message
        Except.error (DoError.apiError status ("API error (" ++ toString status ++ "): " ++ msg))
      | [] =>
        Except.error (DoError.apiError status ("API error (" ++ toString status ++ "): " ++ body))
    | none =>
      Except.error (DoError.apiError status ("API error (" ++ toString status ++ "): " ++ body))
  else
    if wantResult then
      match dR body with
      | some r => Except.ok (some r)
      | none => Except.error DoError.decodeFail
    else Except.ok none

/-! ### Resource accessor operations (client.go)

Each operation is embedded against an oracle for the outcome of one `do`
call (token minting, HTTP round trip and JSON decoding folded into one
`Except`-valued answer, errors being the Go error strings), and returns the
trace of `do` calls it issued alongside its result. A request records the
method, the relative path, and the JSON body when one is sent — for writes,
the single record wrapped in a singleton collection under its plural key. -/

/-- One `do` call descriptor: method, path, optional plural-keyed body. -/
structure Request (β : Type) where
  method : String
  path : String
  body : Option (String × List β)
  deriving DecidableEq, Repr

/-- First (identifier-addressed) request of `GetPost`. -/
def getPostReq1 (idOrSlug : String) : Request Post :=
  ⟨"GET", "/posts/" ++ idOrSlug ++ "/?formats=html", none⟩

/-- Second (slug-namespace) request of `GetPost`. -/
def getPostReq2 (idOrSlug : String) : Request Post :=
  ⟨"GET", "/posts/slug/" ++ idOrSlug ++ "/?formats=html", none⟩

/-- Embedding of `GetPost` (client.go): id-addressed `do` call; on any
failure, a slug-addressed `do` call; then the shared empty-collection
check, failing with `post not found: <key>`, else the first element. -/
def GetPost (idOrSlug : String)
    (o : Request Post → Except String PostsResponse) :
    Except String Post × List (Request Post) :=
  match o (getPostReq1 idOrSlug) with
  | Except.ok resp =>
    (match resp.posts with
     | [] => Except.error ("post not found: " ++ idOrSlug)
     | p :: _ => Except.ok p,
     [getPostReq1 idOrSlug])
  | Except.error _ =>
    match o (getPostReq2 idOrSlug) with
    | Except.ok resp =>
      (match resp.posts with
       | [] => Except.error ("post not found: " ++ idOrSlug)
       | p :: _ => Except.ok p,
       [getPostReq1 idOrSlug, getPostReq2 idOrSlug])
    | Except.error e2 =>
      (Except.error e2, [getPostReq1 idOrSlug, getPostReq2 idOrSlug])

/-- Request issued by `CreatePost`: POST with the write query clause and
the record wrapped in a `posts`-keyed singleton collection. -/
def createPostReq (post : Post) : Request Post :=
  ⟨"POST", "/posts/?source=html&formats=html", some ("posts", [post])⟩

/-- Embedding of `CreatePost` (client.go): one `do` call; a transport
failure propagates; an empty returned collection fails with
`no post returned`; otherwise the first element is unwrapped. -/
def CreatePost (post : Post)
    (o : Request Post → Except String PostsResponse) :
    Except String Post × List (Request Post) :=
  match o (createPostReq post) with
  | Except.error e => (Except.error e, [createPostReq post])
  | Except.ok resp =>
    (match resp.posts with
     | [] => Except.error "no post returned"
     | p :: _ => Except.ok p,
     [createPostReq post])

/-- Request issued by `UpdatePost id`. -/
def updatePostReq (id : String) (post : Post) : Request Post :=
  ⟨"PUT", "/posts/" ++ id ++ "/?source=html&formats=html", some ("posts", [post])⟩

/-- Embedding of `UpdatePost` (client.go). -/
def UpdatePost (id : String) (post : Post)
    (o : Request Post → Except String PostsResponse) :
    Except String Post × List (Request Post) :=
  match o (updatePostReq id post) with
  | Except.error e => (Except.error e, [updatePostReq id post])
  | Except.ok resp =>
    (match resp.posts with
     | [] => Except.error "no post returned"
     | p :: _ => Except.ok p,
     [updatePostReq id post])

/-- Embedding of `DeletePost` (client.go): `do("DELETE", path, nil, nil)`.
With a nil result sink the response handler is invoked with
`wantResult = false`; the result decoder passed here is the one that
always fails, which the nil sink makes unreachable. -/
def DeletePost (id : String) (status : Nat) (body : String)
    (dE : String → Option ErrorResponse) :
    Except DoError (Option Unit) × Request Post :=
  (handleResponse status body dE (fun _ => (none : Option Unit)) false,
   ⟨"DELETE", "/posts/" ++ id ++ "/", none⟩)

/-- Request issued by `CreatePage`: note the query clause is
`formats=html` only (no `source=html`), unlike the post write path. -/
def createPageReq (page : Page) : Request Page :=
  ⟨"POST", "/pages/?formats=html", some ("pages", [page])⟩

/-- Embedding of `CreatePage` (client.go). -/
def CreatePage (page : Page)
    (o : Request Page → Except String PagesResponse) :
    Except String Page × List (Request Page) :=
  match o (createPageReq page) with
  | Except.error e => (Except.error e, [createPageReq page])
  | Except.ok resp =>
    (match resp.pages with
     | [] => Except.error "no page returned"
     | p :: _ => Except.ok p,
     [createPageReq page])

/-- Request issued by `UpdatePage id`: again `formats=html` only. -/
def updatePageReq (id : String) (page : Page) : Request Page :=
  ⟨"PUT", "/pages/" ++ id ++ "/?formats=html", some ("pages", [page])⟩

/-- Embedding of `UpdatePage` (client.go). -/
def UpdatePage (id : String) (page : Page)
    (o : Request Page → Except String PagesResponse) :
    Except String Page × List (Request Page) :=
  match o (updatePageReq id page) with
  | Except.error e => (Except.error e, [updatePageReq id page])
  | Except.ok resp =>
    (match resp.pages with
     | [] => Except.error "no page returned"
     | p :: _ => Except.ok p,
     [updatePageReq id page])

/-- Embedding of `DeletePage` (client.go). -/
def DeletePage (id : String) (status : Nat) (body : String)
    (dE : String → Option ErrorResponse) :
    Except DoError (Option Unit) × Request Page :=
  (handleResponse status body dE (fun _ => (none : Option Unit)) false,
   ⟨"DELETE", "/pages/" ++ id ++ "/", none⟩)

/-- Request issued by `CreateTag`. -/
def createTagReq (tag : Tag) : Request Tag :=
  ⟨"POST", "/tags/", some ("tags", [tag])⟩

/-- Embedding of `CreateTag` (client.go). -/
def CreateTag (tag : Tag)
    (o : Request Tag → Except String TagsResponse) :
    Except String Tag × List (Request Tag) :=
  match o (createTagReq tag) with
  | Except.error e => (Except.error e, [createTagReq tag])
  | Except.ok resp =>
    (match resp.tags with
     | [] => Except.error "no tag returned"
     | t :: _ => Except.ok t,
     [createTagReq tag])

/-- Request issued by `UpdateTag id`. -/
def updateTagReq (id : String) (tag : Tag) : Request Tag :=
  ⟨"PUT", "/tags/" ++ id ++ "/", some ("tags", [tag])⟩

/-- Embedding of `UpdateTag` (client.go). -/
def UpdateTag (id : String) (tag : Tag)
    (o : Request Tag → Except String TagsResponse) :
    Except String Tag × List (Request Tag) :=
  match o (updateTagReq id tag) with
  | Except.error e => (Except.error e, [updateTagReq id tag])
  | Except.ok resp =>
    (match resp.tags with
     | [] => Except.error "no tag returned"
     | t :: _ => Except.ok t,
     [updateTagReq id tag])

/-- Embedding of `DeleteTag` (client.go). -/
def DeleteTag (id : String) (status : Nat) (body : String)
    (dE : String → Option ErrorResponse) :
    Except DoError (Option Unit) × Request Tag :=
  (handleResponse status body dE (fun _ => (none : Option Unit)) false,
   ⟨"DELETE", "/tags/" ++ id ++ "/", none⟩)

/-- The single request issued by `GetNewsletter`. -/
def getNewsletterReq (id : String) : Request Newsletter :=
  ⟨"GET", "/newsletters/" ++ id ++ "/", none⟩

/-- Embedding of `GetNewsletter` (client.go): a single identifier-addressed
`do` call — the source has no slug-namespace fallback for newsletters; a
failure of that call is returned as-is, and an empty collection fails with
`newsletter not found: <id>`. -/
def GetNewsletter (id : String)
    (o : Request Newsletter → Except String NewslettersResponse) :
    Except String Newsletter × List (Request Newsletter) :=
  match o (getNewsletterReq id) with
  | Except.error e => (Except.error e, [getNewsletterReq id])
  | Except.ok resp =>
    (match resp.newsletters with
     | [] => Except.error ("newsletter not found: " ++ id)
     | n :: _ => Except.ok n,
     [getNewsletterReq id])

/-- Request issued by `CreateWebhook`. -/
def createWebhookReq (w : Webhook) : Request Webhook :=
  ⟨"POST", "/webhooks/", some ("webhooks", [w])⟩

/-- Embedding of `CreateWebhook` (client.go). -/
def CreateWebhook (w : Webhook)
    (o : Request Webhook → Except String WebhooksResponse) :
    Except String Webhook × List (Request Webhook) :=
  match o (createWebhookReq w) with
  | Except.error e => (Except.error e, [createWebhookReq w])
  | Except.ok resp =>
    (match resp.webhooks with
     | [] => Except.error "no webhook returned"
     | x :: _ => Except.ok x,
     [createWebhookReq w])

/-- Embedding of `DeleteWebhook` (client.go). -/
def DeleteWebhook (id : String) (status : Nat) (body : String)
    (dE : String → Option ErrorResponse) :
    Except DoError (Option Unit) × Request Webhook :=
  (handleResponse status body dE (fun _ => (none : Option Unit)) false,
   ⟨"DELETE", "/webhooks/" ++ id ++ "/", none⟩)

/-! ### Image upload (client.go, `UploadImage`) -/

/-- The single-part multipart body `UploadImage` builds: field name fixed
to `file`, the filename, and the copied file bytes. -/
structure MultipartFile where
  field : String
  filename : String
  content : String
  deriving DecidableEq, Repr

/-- Embedding of `UploadImage` (client.go): mint a token first (with the
wall clock and `filepath.Base` as oracles), and only then open the local
file; build the multipart body, POST it, classify `>= 400` as an upload
failure carrying status and raw body, and decode the success body. The
second component is the trace of file-system `Open` calls issued. In the
Go source the only failure of `GenerateToken` is the credential-parse
failure (HMAC signing with a byte-slice key cannot fail), wrapped as
`generating token: <err>`. -/
def UploadImage (apiKey : String) (filePath : String) (now : GoTime)
    (baseName : String → String)
    (fsOpen : String → Except String String)
    (http : String → MultipartFile → Nat × String)
    (decodeImages : String → Option ImagesResponse) :
    Except String ImagesResponse × List String :=
  match GenerateToken apiKey now with
  | Except.error e => (Except.error ("generating token: " ++ e), [])
  | Except.ok _token =>
    match fsOpen filePath with
    | Except.error e => (Except.error e, [filePath])
    | Except.ok content =>
      let res := http "/images/upload/" ⟨"file", baseName filePath, content⟩
      if res.1 ≥ 400 then
        (Except.error ("upload failed (" ++ toString res.1 ++ "): " ++ res.2),
         [filePath])
      else
        match decodeImages res.2 with
        | none => (Except.error "invalid image response", [filePath])
        | some r => (Except.ok r, [filePath])

/-- Substring test over character lists (used to state query-clause
properties about paths). -/
def hasSubstr (pat : List Char) : List Char → Bool
  | [] => pat.isEmpty
  | c :: rest => pat.isPrefixOf (c :: rest) || hasSubstr pat rest

/-- `true` exactly on `Except.error`. -/
def isErr {ε α : Type} : Except ε α → Bool
  | Except.error _ => true
  | Except.ok _ => false

/-- Concrete token used to instantiate the token-signer property. -/
def tokenW : SignedToken :=
  { alg := "HS256", typ := "JWT", kid := "ab", iat := 1000, exp := 1300,
    aud := "/admin/", key := [15] }

/-- The fixed validation-error entry of the spec's worked example. -/
def validationErr : APIError :=
  { message := "Validation failed", context := "Title is required", errType := "" }

/-- The fixed error envelope of the spec's worked example. -/
def validationEnvelope : ErrorResponse :=
  { errors := [validationErr] }

/-! ### Lemmas about the credential splitter -/

theorem splitOnColon_ne_nil (cs : List Char) : splitOnColon cs ≠ [] := by
  induction cs with
  | nil => simp [splitOnColon]
  | cons c rest ih =>
    rw [splitOnColon]
    split
    · simp
    · rcases h : splitOnColon rest with _ | ⟨x, t⟩
      · exact absurd h ih
      · simp

theorem splitOnColon_no_colon {cs : List Char} (h : ':' ∉ cs) :
    splitOnColon cs = [cs] := by
  induction cs with
  | nil => rfl
  | cons c rest ih =>
    have hc : c ≠ ':' := fun e => h (by simp [e])
    have hr : ':' ∉ rest := fun m => h (List.mem_cons_of_mem _ m)
    rw [splitOnColon, if_neg hc, ih hr]

theorem splitOnColon_append {idc : List Char} (h : ':' ∉ idc) (tl : List Char) :
    splitOnColon (idc ++ ':' :: tl) = idc :: splitOnColon tl := by
  induction idc with
  | nil => simp [splitOnColon]
  | cons c rest ih =>
    have hc : c ≠ ':' := fun e => h (by simp [e])
    have hr : ':' ∉ rest := fun m => h (List.mem_cons_of_mem _ m)
    rw [List.cons_append, splitOnColon, if_neg hc, ih hr]

theorem splitOnColon_length (cs : List Char) :
    (splitOnColon cs).length = cs.count ':' + 1 := by
  induction cs with
  | nil => rfl
  | cons c rest ih =>
    rw [splitOnColon]
    by_cases hc : c = ':'
    · rw [if_pos hc]
      simp [List.count_cons, hc, ih]
    · rw [if_neg hc]
      rcases h : splitOnColon rest with _ | ⟨x, t⟩
      · exact absurd h (splitOnColon_ne_nil rest)
      · rw [h] at ih
        simp only [List.length_cons] at ih ⊢
        have hcc : ¬(':' = c) := fun e => hc e.symm
        simp [List.count_cons, hcc, ih]

/-- C3: `ParseAPIKey` accepts exactly the strings `{id}:{hex}` with one
separator, a non-empty id, and a non-empty valid-hex secret, returning the
id and the decoded secret bytes; it fails on zero or two-or-more
separators, an empty id segment, an empty secret segment, or a non-hex
secret segment. -/
theorem parseAPIKey_spec :
    (∀ idc hx bs, idc ≠ [] → ':' ∉ idc → ':' ∉ hx → hx ≠ [] →
      hexDecodeL hx = some bs →
      ParseAPIKey (String.mk (idc ++ ':' :: hx)) = Except.ok (String.mk idc, bs))
  ∧ (∀ s : String, s.data.count ':' ≠ 1 → isErr (ParseAPIKey s) = true)
  ∧ (∀ hx, ':' ∉ hx → isErr (ParseAPIKey (String.mk (':' :: hx))) = true)
  ∧ (∀ idc, ':' ∉ idc → isErr (ParseAPIKey (String.mk (idc ++ [':']))) = true)
  ∧ (∀ idc hx, ':' ∉ idc → ':' ∉ hx → hexDecodeL hx = none →
      isErr (ParseAPIKey (String.mk (idc ++ ':' :: hx))) = true) := by
  refine ⟨?_, ?_, ?_, ?_, ?_⟩
  · intro idc hx bs hne h1 h2 hxe hdec
    have hid : String.mk idc ≠ "" := by
      intro h
      exact hne (congrArg String.data h)
    have hsec : String.mk hx ≠ "" := by
      intro h
      exact hxe (congrArg String.data h)
    have hsplit : splitOnColon (idc ++ ':' :: hx) = [idc, hx] := by
      rw [splitOnColon_append h1, splitOnColon_no_colon h2]
    simp only [ParseAPIKey, hsplit, List.map_cons, List.map_nil,
      if_neg hid, if_neg hsec]
    rw [hdec]
  · intro s hcnt
    have hlen : ((splitOnColon s.data).map String.mk).length ≠ 2 := by
      rw [List.length_map, splitOnColon_length]
      omega
    rcases h : (splitOnColon s.data).map String.mk with _ | ⟨a, _ | ⟨b, _ | ⟨c, t⟩⟩⟩
    · simp [ParseAPIKey, h, isErr]
    · simp [ParseAPIKey, h, isErr]
    · rw [h] at hlen
      simp at hlen
    · simp [ParseAPIKey, h, isErr]
  · intro hx h2
    have hsplit : splitOnColon (':' :: hx) = [[], hx] := by
      rw [splitOnColon, if_pos rfl, splitOnColon_no_colon h2]
    simp [ParseAPIKey, hsplit, isErr]
  · intro idc h1
    have hsplit : splitOnColon (idc ++ [':']) = [idc, []] := by
      have : idc ++ [':'] = idc ++ ':' :: [] := rfl
      rw [this, splitOnColon_append h1]
      rfl
    by_cases h0 : String.mk idc = ""
    · simp [ParseAPIKey, hsplit, h0, isErr]
    · simp [ParseAPIKey, hsplit, h0, isErr]
  · intro idc hx h1 h2 hdec
    have hsplit : splitOnColon (idc ++ ':' :: hx) = [idc, hx] := by
      rw [splitOnColon_append h1, splitOnColon_no_colon h2]
    by_cases h0 : String.mk idc = ""
    · simp [ParseAPIKey, hsplit, h0, isErr]
    · by_cases hs0 : String.mk hx = ""
      · simp [ParseAPIKey, hsplit, h0, hs0, isErr]
      · have hdata : (String.mk hx).data = hx := rfl
        simp [ParseAPIKey, hsplit, h0, hs0, hdata, hdec, isErr]

/-- Witness for C3: the concrete credential `ab:0f` parses to id `ab` and
secret bytes `[15]`. -/
theorem parseAPIKey_spec_witness :
    ParseAPIKey (String.mk ("ab".data ++ ':' :: "0f".data)) =
      Except.ok (String.mk "ab".data, [15]) :=
  parseAPIKey_spec.1 "ab".data "0f".data [15] (by decide) (by decide)
    (by decide) (by decide) (by decide)

theorem goTime_add_300s_unix (now : GoTime) (hn : now.nsec < 1000000000) :
    (now.add (300 * 1000000000)).unix = now.sec + 300 := by
  simp only [GoTime.add, GoTime.unix]
  have h1 : ((300 : Int) * 1000000000) / 1000000000 = 300 := by norm_num
  have h2 : ((300 : Int) * 1000000000) % 1000000000 = 0 := by norm_num
  rw [h1, h2]
  rw [if_neg (by omega)]

/-- C4: minting a token is a pure function of the credential and the
supplied time (two calls with the same arguments yield byte-identical
tokens, the embedded `GenerateTokenWithTime` being a function with no
other inputs); every minted token has `exp - iat = 300` seconds, audience
`/admin/`, and its `kid` header equal to the id parsed from the
credential, its key being the parsed secret. -/
theorem generateTokenWithTime_spec :
    (∀ apiKey now, GenerateTokenWithTime apiKey now = GenerateTokenWithTime apiKey now)
  ∧ (∀ apiKey (now : GoTime) tok, now.nsec < 1000000000 →
      GenerateTokenWithTime apiKey now = Except.ok tok →
      tok.exp - tok.iat = 300 ∧ tok.aud = "/admin/" ∧
        ParseAPIKey apiKey = Except.ok (tok.kid, tok.key)) := by
  refine ⟨fun _ _ => rfl, ?_⟩
  intro apiKey now tok hn h
  cases hp : ParseAPIKey apiKey with
  | error e =>
    rw [GenerateTokenWithTime, hp] at h
    exact absurd h (by simp)
  | ok v =>
    obtain ⟨idv, secret⟩ := v
    rw [GenerateTokenWithTime, hp] at h
    simp only [Except.ok.injEq] at h
    subst h
    refine ⟨?_, rfl, ?_⟩
    · show (now.add (300 * 1000000000)).unix - now.unix = 300
      rw [goTime_add_300s_unix now hn, GoTime.unix]
      ring
    · rfl

/-- Witness for C4: minting with credential `ab:0f` at wall-clock time
1000s + 5ns yields a token with a 300-second lifetime, audience `/admin/`
and key-id `ab`. -/
theorem generateTokenWithTime_spec_witness :
    tokenW.exp - tokenW.iat = 300 ∧ tokenW.aud = "/admin/" ∧
      ParseAPIKey "ab:0f" = Except.ok (tokenW.kid, tokenW.key) :=
  generateTokenWithTime_spec.2 "ab:0f" ⟨1000, 5⟩ tokenW (by decide) (by rfl)

/-- C2: classification of a buffered HTTP response by `do`. A status below
400 succeeds, decoding the body exactly when a result sink was supplied; a
status of 400 or more fails with an API error carrying the status, whose
message is the first envelope entry's message — extended with `": " +
context` exactly when the context is non-empty — when the body decodes as
an error envelope with at least one entry, and the raw body text when
decoding fails or the entry list is empty. -/
theorem handleResponse_classification (ρ : Type) (status : Nat) (body : String)
    (dE : String → Option ErrorResponse) (dR : String → Option ρ) :
    (status < 400 → handleResponse status body dE dR false = Except.ok none)
  ∧ (status < 400 → ∀ r, dR body = some r →
      handleResponse status body dE dR true = Except.ok (some r))
  ∧ (status < 400 → dR body = none →
      handleResponse status body dE dR true = Except.error DoError.decodeFail)
  ∧ (400 ≤ status → ∀ env e rest, dE body = some env → env.errors = e :: rest →
      ∀ w, handleResponse status body dE dR w =
        Except.error (DoError.apiError status ("API error (" ++ toString status ++ "): " ++
          (if e.context ≠ "" then e.message ++ ": " ++ e.context else e.message))))
  ∧ (400 ≤ status → dE body = none →
      ∀ w, handleResponse status body dE dR w =
        Except.error (DoError.apiError status ("API error (" ++ toString status ++ "): " ++ body)))
  ∧ (400 ≤ status → ∀ env, dE body = some env → env.errors = [] →
      ∀ w, handleResponse status body dE dR w =
        Except.error (DoError.apiError status ("API error (" ++ toString status ++ "): " ++ body))) := by
  refine ⟨?_, ?_, ?_, ?_, ?_, ?_⟩
  · intro h
    simp [handleResponse, Nat.not_le.mpr h]
  · intro h r hr
    simp [handleResponse, Nat.not_le.mpr h, hr]
  · intro h hr
    simp [handleResponse, Nat.not_le.mpr h, hr]
  · intro h env e rest henv herr w
    simp [handleResponse, h, henv, herr]
  · intro h henv w
    simp [handleResponse, h, henv]
  · intro h env henv herr w
    simp [handleResponse, h, henv, herr]

/-- Witness for C2: the fixed envelope with message `Validation failed`
and context `Title is required` at status 422 produces the API error text
joining both with `": "`, and status 500 with the non-JSON body
`Internal Server Error` produces the raw-body error text. -/
theorem handleResponse_classification_witness :
    handleResponse (ρ := Unit) 422 "raw"
      (fun _ => some validationEnvelope) (fun _ => none) false =
      Except.error (DoError.apiError 422 ("API error (" ++ toString (422 : Nat) ++ "): " ++
        (if validationErr.context ≠ "" then
          validationErr.message ++ ": " ++ validationErr.context
         else validationErr.message)))
  ∧ handleResponse (ρ := Unit) 500 "Internal Server Error"
      (fun _ => none) (fun _ => none) false =
      Except.error (DoError.apiError 500 ("API error (" ++ toString (500 : Nat) ++ "): " ++
        "Internal Server Error")) :=
  ⟨(handleResponse_classification Unit 422 "raw"
      (fun _ => some validationEnvelope) (fun _ => none)).2.2.2.1 (by omega)
      validationEnvelope validationErr [] rfl rfl false,
   (handleResponse_classification Unit 500 "Internal Server Error"
      (fun _ => none) (fun _ => none)).2.2.2.2.1 (by omega) rfl false⟩

/-- C1: `GetPost` issues at most two `do` calls; a first call answering a
non-empty collection succeeds with its first element after exactly one
call; the slug-namespace call is issued exactly when the first call fails
(whatever its failure); when both fail the second failure is propagated;
and a succeeding attempt with an empty collection yields the not-found
error naming the input. -/
theorem getPost_fallback_spec (k : String)
    (o : Request Post → Except String PostsResponse) :
    ((GetPost k o).2.length ≤ 2)
  ∧ (∀ resp p rest, o (getPostReq1 k) = Except.ok resp → resp.posts = p :: rest →
      GetPost k o = (Except.ok p, [getPostReq1 k]))
  ∧ (∀ resp, o (getPostReq1 k) = Except.ok resp → (GetPost k o).2 = [getPostReq1 k])
  ∧ (∀ e, o (getPostReq1 k) = Except.error e →
      (GetPost k o).2 = [getPostReq1 k, getPostReq2 k])
  ∧ (∀ e1 e2, o (getPostReq1 k) = Except.error e1 →
      o (getPostReq2 k) = Except.error e2 → (GetPost k o).1 = Except.error e2)
  ∧ (∀ e1 resp p rest, o (getPostReq1 k) = Except.error e1 →
      o (getPostReq2 k) = Except.ok resp → resp.posts = p :: rest →
      GetPost k o = (Except.ok p, [getPostReq1 k, getPostReq2 k]))
  ∧ (∀ resp, o (getPostReq1 k) = Except.ok resp → resp.posts = [] →
      (GetPost k o).1 = Except.error ("post not found: " ++ k))
  ∧ (∀ e1 resp, o (getPostReq1 k) = Except.error e1 →
      o (getPostReq2 k) = Except.ok resp → resp.posts = [] →
      (GetPost k o).1 = Except.error ("post not found: " ++ k)) := by
  refine ⟨?_, ?_, ?_, ?_, ?_, ?_, ?_, ?_⟩
  · cases h1 : o (getPostReq1 k) with
    | ok resp => cases h : resp.posts <;> simp [GetPost, h1, h]
    | error e1 =>
      cases h2 : o (getPostReq2 k) with
      | ok resp => cases h : resp.posts <;> simp [GetPost, h1, h2, h]
      | error e2 => simp [GetPost, h1, h2]
  · intro resp p rest h1 h
    simp [GetPost, h1, h]
  · intro resp h1
    cases h : resp.posts <;> simp [GetPost, h1, h]
  · intro e h1
    cases h2 : o (getPostReq2 k) with
    | ok resp => cases h : resp.posts <;> simp [GetPost, h1, h2, h]
    | error e2 => simp [GetPost, h1, h2]
  · intro e1 e2 h1 h2
    simp [GetPost, h1, h2]
  · intro e1 resp p rest h1 h2 h
    simp [GetPost, h1, h2, h]
  · intro resp h1 h
    simp [GetPost, h1, h]
  · intro e1 resp h1 h2 h
    simp [GetPost, h1, h2, h]

/-- Witness for C1: a transport whose id-addressed call fails and whose
slug-addressed call answers an empty collection makes `GetPost` fail with
the not-found error naming the input. -/
theorem getPost_fallback_spec_witness :
    (GetPost "p7" (fun r => if r.path = "/posts/p7/?formats=html"
        then Except.error "status 404" else Except.ok {})).1 =
      Except.error ("post not found: " ++ "p7") :=
  (getPost_fallback_spec "p7" (fun r => if r.path = "/posts/p7/?formats=html"
      then Except.error "status 404" else Except.ok {})).2.2.2.2.2.2.2
    "status 404" {} (by rfl) (by rfl) (by rfl)

/-- C5: each create/update operation propagates a transport failure
unchanged, fails with its `no <kind> returned` error when the transport
succeeded but the returned collection is empty, and returns exactly the
first element of a non-empty returned collection. -/
theorem create_update_unwrap_spec :
    (∀ (x : Post) o,
      (∀ resp, o (createPostReq x) = Except.ok resp → resp.posts = [] →
        (CreatePost x o).1 = Except.error "no post returned")
      ∧ (∀ resp p rest, o (createPostReq x) = Except.ok resp → resp.posts = p :: rest →
        (CreatePost x o).1 = Except.ok p)
      ∧ (∀ e, o (createPostReq x) = Except.error e → (CreatePost x o).1 = Except.error e))
  ∧ (∀ (id : String) (x : Post) o,
      (∀ resp, o (updatePostReq id x) = Except.ok resp → resp.posts = [] →
        (UpdatePost id x o).1 = Except.error "no post returned")
      ∧ (∀ resp p rest, o (updatePostReq id x) = Except.ok resp → resp.posts = p :: rest →
        (UpdatePost id x o).1 = Except.ok p)
      ∧ (∀ e, o (updatePostReq id x) = Except.error e →
        (UpdatePost id x o).1 = Except.error e))
  ∧ (∀ (x : Page) o,
      (∀ resp, o (createPageReq x) = Except.ok resp → resp.pages = [] →
        (CreatePage x o).1 = Except.error "no page returned")
      ∧ (∀ resp p rest, o (createPageReq x) = Except.ok resp → resp.pages = p :: rest →
        (CreatePage x o).1 = Except.ok p)
      ∧ (∀ e, o (createPageReq x) = Except.error e → (CreatePage x o).1 = Except.error e))
  ∧ (∀ (id : String) (x : Page) o,
      (∀ resp, o (updatePageReq id x) = Except.ok resp → resp.pages = [] →
        (UpdatePage id x o).1 = Except.error "no page returned")
      ∧ (∀ resp p rest, o (updatePageReq id x) = Except.ok resp → resp.pages = p :: rest →
        (UpdatePage id x o).1 = Except.ok p)
      ∧ (∀ e, o (updatePageReq id x) = Except.error e →
        (UpdatePage id x o).1 = Except.error e))
  ∧ (∀ (x : Tag) o,
      (∀ resp, o (createTagReq x) = Except.ok resp → resp.tags = [] →
        (CreateTag x o).1 = Except.error "no tag returned")
      ∧ (∀ resp t rest, o (createTagReq x) = Except.ok resp → resp.tags = t :: rest →
        (CreateTag x o).1 = Except.ok t)
      ∧ (∀ e, o (createTagReq x) = Except.error e → (CreateTag x o).1 = Except.error e))
  ∧ (∀ (id : String) (x : Tag) o,
      (∀ resp, o (updateTagReq id x) = Except.ok resp → resp.tags = [] →
        (UpdateTag id x o).1 = Except.error "no tag returned")
      ∧ (∀ resp t rest, o (updateTagReq id x) = Except.ok resp → resp.tags = t :: rest →
        (UpdateTag id x o).1 = Except.ok t)
      ∧ (∀ e, o (updateTagReq id x) = Except.error e →
        (UpdateTag id x o).1 = Except.error e))
  ∧ (∀ (x : Webhook) o,
      (∀ resp, o (createWebhookReq x) = Except.ok resp → resp.webhooks = [] →
        (CreateWebhook x o).1 = Except.error "no webhook returned")
      ∧ (∀ resp w rest, o (createWebhookReq x) = Except.ok resp → resp.webhooks = w :: rest →
        (CreateWebhook x o).1 = Except.ok w)
      ∧ (∀ e, o (createWebhookReq x) = Except.error e →
        (CreateWebhook x o).1 = Except.error e)) := by
  refine ⟨?_, ?_, ?_, ?_, ?_, ?_, ?_⟩
  · intro x o
    exact ⟨fun resp h1 h2 => by simp [CreatePost, h1, h2],
           fun resp p rest h1 h2 => by simp [CreatePost, h1, h2],
           fun e h1 => by simp [CreatePost, h1]⟩
  · intro id x o
    exact ⟨fun resp h1 h2 => by simp [UpdatePost, h1, h2],
           fun resp p rest h1 h2 => by simp [UpdatePost, h1, h2],
           fun e h1 => by simp [UpdatePost, h1]⟩
  · intro x o
    exact ⟨fun resp h1 h2 => by simp [CreatePage, h1, h2],
           fun resp p rest h1 h2 => by simp [CreatePage, h1, h2],
           fun e h1 => by simp [CreatePage, h1]⟩
  · intro id x o
    exact ⟨fun resp h1 h2 => by simp [UpdatePage, h1, h2],
           fun resp p rest h1 h2 => by simp [UpdatePage, h1, h2],
           fun e h1 => by simp [UpdatePage, h1]⟩
  · intro x o
    exact ⟨fun resp h1 h2 => by simp [CreateTag, h1, h2],
           fun resp t rest h1 h2 => by simp [CreateTag, h1, h2],
           fun e h1 => by simp [CreateTag, h1]⟩
  · intro id x o
    exact ⟨fun resp h1 h2 => by simp [UpdateTag, h1, h2],
           fun resp t rest h1 h2 => by simp [UpdateTag, h1, h2],
           fun e h1 => by simp [UpdateTag, h1]⟩
  · intro x o
    exact ⟨fun resp h1 h2 => by simp [CreateWebhook, h1, h2],
           fun resp w rest h1 h2 => by simp [CreateWebhook, h1, h2],
           fun e h1 => by simp [CreateWebhook, h1]⟩

/-- Witness for C5: a 201-style response whose collection is empty makes
`CreatePost` fail with `no post returned`. -/
theorem create_update_unwrap_spec_witness :
    (CreatePost {} (fun _ => Except.ok {})).1 = Except.error "no post returned" :=
  ((create_update_unwrap_spec.1 {} (fun _ => Except.ok {})).1 {} (by rfl) (by rfl))

/-- Counterexample to C6 as stated: the requests built by `CreatePage` and
`UpdatePage` carry only `formats=html`; their paths do not contain the
post-write clause `source=html`. -/
theorem pageWrite_source_clause_cex :
    (CreatePage {} (fun _ => Except.error "e")).2 =
      [⟨"POST", "/pages/?formats=html", some ("pages", [{}])⟩]
  ∧ (UpdatePage "p1" {} (fun _ => Except.error "e")).2 =
      [⟨"PUT", "/pages/p1/?formats=html", some ("pages", [{}])⟩]
  ∧ hasSubstr "source=html".data "/pages/?formats=html".data = false
  ∧ hasSubstr "source=html".data "/pages/p1/?formats=html".data = false := by
  refine ⟨rfl, ?_, by decide, by decide⟩
  show [updatePageReq "p1" {}] = _
  rfl

/-- C6 (amended): the query clause on page writes is `formats=html` only;
the `source=html&formats=html` write clause appears on post writes. -/
theorem pageWrite_clause_spec :
    (∀ (pg : Page) (o : Request Page → Except String PagesResponse),
      (CreatePage pg o).2 = [createPageReq pg])
  ∧ (∀ pg : Page, (createPageReq pg).path = "/pages/?formats=html")
  ∧ (∀ (id : String) (pg : Page) (o : Request Page → Except String PagesResponse),
      (UpdatePage id pg o).2 = [updatePageReq id pg])
  ∧ (∀ (id : String) (pg : Page),
      (updatePageReq id pg).path = "/pages/" ++ id ++ "/?formats=html")
  ∧ (∀ (p : Post) (o : Request Post → Except String PostsResponse),
      (CreatePost p o).2 = [createPostReq p])
  ∧ (∀ p : Post, (createPostReq p).path = "/posts/?source=html&formats=html")
  ∧ hasSubstr "formats=html".data "/pages/?formats=html".data = true
  ∧ hasSubstr "source=html&formats=html".data "/posts/?source=html&formats=html".data = true := by
  refine ⟨?_, fun _ => rfl, ?_, fun _ _ => rfl, ?_, fun _ => rfl, by decide, by decide⟩
  · intro pg o
    cases h : o (createPageReq pg) <;> simp [CreatePage, h]
  · intro id pg o
    cases h : o (updatePageReq id pg) <;> simp [UpdatePage, h]
  · intro p o
    cases h : o (createPostReq p) <;> simp [CreatePost, h]

/-- Witness for C6 (amended): the concrete trace of a page create. -/
theorem pageWrite_clause_spec_witness :
    (CreatePage {} (fun _ => Except.ok {})).2 = [createPageReq {}] :=
  pageWrite_clause_spec.1 {} (fun _ => Except.ok {})

/-- Counterexample to C7 as stated: when its single identifier-addressed
call fails, `GetNewsletter` does not issue a slug-namespace fallback call —
it stops after one call and propagates the failure. -/
theorem newsletter_fallback_cex :
    (GetNewsletter "n1" (fun _ => Except.error "boom")).2.length = 1
  ∧ (GetNewsletter "n1" (fun _ => Except.error "boom")).1 = Except.error "boom" :=
  ⟨rfl, rfl⟩

/-- C7 (amended): `GetNewsletter` issues exactly one request, addressed by
identifier, with no slug fallback; a failure of that call is propagated
as-is; an empty collection yields the not-found error naming the input;
a non-empty collection yields its first element. -/
theorem getNewsletter_single_call_spec (id : String)
    (o : Request Newsletter → Except String NewslettersResponse) :
    ((GetNewsletter id o).2 = [getNewsletterReq id])
  ∧ (∀ e, o (getNewsletterReq id) = Except.error e →
      (GetNewsletter id o).1 = Except.error e)
  ∧ (∀ resp, o (getNewsletterReq id) = Except.ok resp → resp.newsletters = [] →
      (GetNewsletter id o).1 = Except.error ("newsletter not found: " ++ id))
  ∧ (∀ resp n rest, o (getNewsletterReq id) = Except.ok resp →
      resp.newsletters = n :: rest → (GetNewsletter id o).1 = Except.ok n) := by
  refine ⟨?_, ?_, ?_, ?_⟩
  · cases h : o (getNewsletterReq id) with
    | ok resp => cases hr : resp.newsletters <;> simp [GetNewsletter, h, hr]
    | error e => simp [GetNewsletter, h]
  · intro e h
    simp [GetNewsletter, h]
  · intro resp h hr
    simp [GetNewsletter, h, hr]
  · intro resp n rest h hr
    simp [GetNewsletter, h, hr]

/-- Witness for C7 (amended): a failing transport leaves exactly the one
identifier-addressed request in the trace. -/
theorem getNewsletter_single_call_spec_witness :
    (GetNewsletter "n1" (fun _ => Except.error "boom")).2 = [getNewsletterReq "n1"] :=
  (getNewsletter_single_call_spec "n1" (fun _ => Except.error "boom")).1

/-- C8: marshaling then unmarshaling a `Pagination` reproduces every field
exactly, and the `next`/`prev` keys are always present — an explicit
`null` when the field is nil, the page number when it is set. -/
theorem pagination_roundtrip_spec (p : Pagination) :
    Pagination.unmarshal (Pagination.marshal p) = some p
  ∧ jsonLookup p.marshalFields "next" =
      some (match p.next with | none => JSON.null | some n => JSON.num n)
  ∧ jsonLookup p.marshalFields "prev" =
      some (match p.prev with | none => JSON.null | some n => JSON.num n) := by
  obtain ⟨pg, lim, pgs, tot, nx, pv⟩ := p
  refine ⟨?_, ?_, ?_⟩ <;> cases nx <;> cases pv <;> rfl

/-- Witness for C8: the spec's `Pagination{next: null, prev: 4}` example
round-trips and serialises `next` as explicit `null`, `prev` as `4`. -/
theorem pagination_roundtrip_spec_witness :
    Pagination.unmarshal (Pagination.marshal
      { page := 1, limit := 15, pages := 5, total := 70, next := none, prev := some 4 }) =
      some { page := 1, limit := 15, pages := 5, total := 70, next := none, prev := some 4 }
  ∧ jsonLookup (Pagination.marshalFields
      { page := 1, limit := 15, pages := 5, total := 70, next := none, prev := some 4 }) "next" =
      some JSON.null
  ∧ jsonLookup (Pagination.marshalFields
      { page := 1, limit := 15, pages := 5, total := 70, next := none, prev := some 4 }) "prev" =
      some (JSON.num 4) :=
  pagination_roundtrip_spec
    { page := 1, limit := 15, pages := 5, total := 70, next := none, prev := some 4 }

/-- C9: every delete operation passes a nil result sink to `do`, so a
response with status below 400 succeeds whatever the body contains — the
body is never decoded (the result decoder is the everywhere-failing one
and is not consulted). -/
theorem delete_sub400_spec (id : String) (status : Nat) (body : String)
    (dE : String → Option ErrorResponse) (h : status < 400) :
    (DeletePost id status body dE).1 = Except.ok none
  ∧ (DeletePage id status body dE).1 = Except.ok none
  ∧ (DeleteTag id status body dE).1 = Except.ok none
  ∧ (DeleteWebhook id status body dE).1 = Except.ok none := by
  have hn : ¬ status ≥ 400 := by omega
  refine ⟨?_, ?_, ?_, ?_⟩ <;>
    simp [DeletePost, DeletePage, DeleteTag, DeleteWebhook, handleResponse, hn]

/-- Witness for C9: a 204 delete response with a malformed non-empty body
still succeeds. -/
theorem delete_sub400_spec_witness :
    (DeletePost "p1" 204 "garbage not-json" (fun _ => none)).1 = Except.ok none :=
  (delete_sub400_spec "p1" 204 "garbage not-json" (fun _ => none) (by omega)).1

/-- C10: `UploadImage` mints the token before touching the file system:
with a malformed credential it fails with the token-generation error and
the file-open trace is empty, for every file path and file system; when
the credential parses, the file is opened and a file-open failure is then
the operation's error. -/
theorem uploadImage_token_first_spec (apiKey filePath : String) (now : GoTime)
    (baseName : String → String) (fsOpen : String → Except String String)
    (http : String → MultipartFile → Nat × String)
    (decodeImages : String → Option ImagesResponse) :
    (∀ e, ParseAPIKey apiKey = Except.error e →
      UploadImage apiKey filePath now baseName fsOpen http decodeImages =
        (Except.error ("generating token: " ++ e), []))
  ∧ (∀ idv secret, ParseAPIKey apiKey = Except.ok (idv, secret) →
      (UploadImage apiKey filePath now baseName fsOpen http decodeImages).2 = [filePath]
      ∧ (∀ io, fsOpen filePath = Except.error io →
          (UploadImage apiKey filePath now baseName fsOpen http decodeImages).1 =
            Except.error io)) := by
  constructor
  · intro e hp
    simp [UploadImage, GenerateToken, GenerateTokenWithTime, hp]
  · intro idv secret hp
    constructor
    · cases ho : fsOpen filePath with
      | error io => simp [UploadImage, GenerateToken, GenerateTokenWithTime, hp, ho]
      | ok content =>
        simp only [UploadImage, GenerateToken, GenerateTokenWithTime, hp, ho]
        split
        · rfl
        · cases hd : decodeImages (http "/images/upload/"
            ⟨"file", baseName filePath, content⟩).2 <;> simp [hd]
    · intro io ho
      simp [UploadImage, GenerateToken, GenerateTokenWithTime, hp, ho]

/-- Witness for C10: with the separator-free credential `bad` the upload
fails with the credential error wrapped as a token-generation error, and
the file system is never consulted — here the path is one the file system
would even happily open. -/
theorem uploadImage_token_first_spec_witness :
    UploadImage "bad" "/tmp/x.png" ⟨0, 0⟩ (fun s => s)
      (fun _ => Except.ok "bytes") (fun _ _ => (200, "{}")) (fun _ => some {}) =
      (Except.error ("generating token: " ++ "invalid API key format: expected id:secret"), []) :=
  (uploadImage_token_first_spec "bad" "/tmp/x.png" ⟨0, 0⟩ (fun s => s)
      (fun _ => Except.ok "bytes") (fun _ _ => (200, "{}")) (fun _ => some {})).1
    "invalid API key format: expected id:secret" (by rfl)

end Libecto
